import Mathlib

/-
Verification of the fitness-planner rule engine in starter.py.

The embedding follows the source closely:
  - FitnessUser mirrors the Python class FitnessUser (starter.py lines 11-21);
    after __init__, limitations is always a list (None becomes []).
  - WeeklyPlan mirrors the dict built by deterministic_agent, with
    weekly_schedule as an association list recording the insertion order of
    the Python dict.
  - deterministic_agent mirrors starter.py lines 26-72.  Python list
    indexing and the modulo there can raise; deterministic_agentChecked
    models those operations in Option, and the totality theorem shows the
    checked version always succeeds with the same plan.
  - llm_agent mirrors starter.py lines 77-152.  The external model call and
    json.loads are outside this repository, so they are parameters: create
    is the outcome of client.responses.create (the output_text, or the
    message of the exception it raised) and loads is the behaviour of
    json.loads (a parsed value, or the message of the exception it raised).
-/

namespace FitnessPlanner

/-- Mirror of the Python class FitnessUser (starter.py 11-21). -/
structure FitnessUser where
  id : String
  age : Int
  fitness_level : Int
  goals : List String
  preferences : List String
  limitations : List String
  deriving DecidableEq, Repr

/-- One entry of the weekly_schedule dict built at starter.py 65-70. -/
structure DaySession where
  type : String
  duration : Nat
  intensity : String
  description : String
  deriving DecidableEq, Repr, Inhabited

/-- The plan dict returned by deterministic_agent; weekly_schedule keeps the
insertion order of the Python dict. -/
structure WeeklyPlan where
  workout_days : Nat
  session_duration : Nat
  workout_types : List String
  intensity : String
  weekly_schedule : List (String × DaySession)
  deriving DecidableEq, Repr

/-- The fixed day sequence of starter.py line 61. -/
def days : List String :=
  ["Monday", "Wednesday", "Friday", "Tuesday", "Thursday", "Saturday"]

/-- Python str.capitalize: first character upper-cased, the rest lower-cased. -/
def pycapitalize (s : String) : String :=
  match s.data with
  | [] => s
  | c :: cs => String.mk (c.toUpper :: cs.map Char.toLower)

/-- The rule-based planner, starter.py 26-72.  Python list indexing at
line 64-65 is modelled with getD; deterministic_agentChecked below models the
fallible operations faithfully and is proved to agree. -/
def deterministic_agent (user : FitnessUser) : WeeklyPlan :=
  let workout_days : Nat :=
    if user.fitness_level ≥ 4 then 5
    else if user.fitness_level ≥ 2 then 4
    else 3
  let session_duration : Nat :=
    if user.fitness_level ≥ 3 then 45 else 30
  let intensity : String :=
    if user.fitness_level ≤ 2 then "low"
    else if user.fitness_level ≥ 4 then "high"
    else "moderate"
  let wt1 : List String := if user.goals.contains "weight management" then ["cardio"] else []
  let wt2 : List String := if user.goals.contains "strength building" then wt1 ++ ["strength training"] else wt1
  let wt3 : List String := if user.goals.contains "flexibility" then wt2 ++ ["stretching"] else wt2
  let wt4 : List String := if user.goals.contains "endurance" then wt3 ++ ["interval training"] else wt3
  let workout_types : List String :=
    if wt4.isEmpty then ["general fitness", "light cardio"] else wt4
  let weekly_schedule : List (String × DaySession) :=
    (List.range workout_days).map fun i =>
      let workout_type := workout_types.getD (i % workout_types.length) ""
      (days.getD i "",
        { type := workout_type
          duration := session_duration
          intensity := intensity
          description := pycapitalize intensity ++ " " ++ workout_type ++ " session" })
  { workout_days := workout_days
    session_duration := session_duration
    workout_types := workout_types
    intensity := intensity
    weekly_schedule := weekly_schedule }

/-- Python list indexing: out of range raises IndexError. -/
def pyIndex {α : Type} (l : List α) (i : Nat) : Option α := l[i]?

/-- Python modulo on ints: a modulus of zero raises ZeroDivisionError. -/
def pyMod (a b : Nat) : Option Nat := if b = 0 then none else some (a % b)

/-- deterministic_agent with the fallible Python operations (modulo at
line 64, list indexing at lines 64-65) modelled in Option. -/
def deterministic_agentChecked (user : FitnessUser) : Option WeeklyPlan :=
  let workout_days : Nat :=
    if user.fitness_level ≥ 4 then 5
    else if user.fitness_level ≥ 2 then 4
    else 3
  let session_duration : Nat :=
    if user.fitness_level ≥ 3 then 45 else 30
  let intensity : String :=
    if user.fitness_level ≤ 2 then "low"
    else if user.fitness_level ≥ 4 then "high"
    else "moderate"
  let wt1 : List String := if user.goals.contains "weight management" then ["cardio"] else []
  let wt2 : List String := if user.goals.contains "strength building" then wt1 ++ ["strength training"] else wt1
  let wt3 : List String := if user.goals.contains "flexibility" then wt2 ++ ["stretching"] else wt2
  let wt4 : List String := if user.goals.contains "endurance" then wt3 ++ ["interval training"] else wt3
  let workout_types : List String :=
    if wt4.isEmpty then ["general fitness", "light cardio"] else wt4
  do
    let weekly_schedule ← (List.range workout_days).mapM fun i => do
      let j ← pyMod i workout_types.length
      let workout_type ← pyIndex workout_types j
      let day ← pyIndex days i
      pure ((day, { type := workout_type
                    duration := session_duration
                    intensity := intensity
                    description := pycapitalize intensity ++ " " ++ workout_type ++ " session" }) :
        String × DaySession)
    pure { workout_days := workout_days
           session_duration := session_duration
           workout_types := workout_types
           intensity := intensity
           weekly_schedule := weekly_schedule }

/-- A Python value as produced by json.loads or built by llm_agent; a dict is
an association list in insertion order. -/
inductive PyVal where
  | str (s : String)
  | int (n : Int)
  | list (elems : List PyVal)
  | dict (entries : List (String × PyVal))

/-- The workout dict placed in the schedule at starter.py 65-70, as a Python
value, keys in insertion order. -/
def sessionToPy (s : DaySession) : PyVal :=
  PyVal.dict [("type", PyVal.str s.type), ("duration", PyVal.int s.duration),
    ("intensity", PyVal.str s.intensity), ("description", PyVal.str s.description)]

/-- The weekly_schedule dict as a Python value. -/
def scheduleToPy (sched : List (String × DaySession)) : PyVal :=
  PyVal.dict (sched.map fun p => (p.1, sessionToPy p.2))

/-- The full plan dict returned by deterministic_agent as a Python value, keys
in insertion order (starter.py 28-33 then 60). -/
def planToPy (p : WeeklyPlan) : PyVal :=
  PyVal.dict [("workout_days", PyVal.int p.workout_days),
    ("session_duration", PyVal.int p.session_duration),
    ("workout_types", PyVal.list (p.workout_types.map PyVal.str)),
    ("intensity", PyVal.str p.intensity),
    ("weekly_schedule", scheduleToPy p.weekly_schedule)]

/-- The top-level keys of a Python dict, in order; non-dicts have none. -/
def pyKeys (v : PyVal) : List String :=
  match v with
  | PyVal.dict entries => entries.map Prod.fst
  | _ => []

/-- The minimal shape the caller compare_workout_planning relies on
(starter.py 178): a dict with a weekly_schedule key. -/
def isWeeklyPlanShaped (v : PyVal) : Bool :=
  match v with
  | PyVal.dict entries => (entries.map Prod.fst).contains "weekly_schedule"
  | _ => false

/-- The LLM planner, starter.py 77-152.  The external call and json.loads are
not code of this repository, so they are parameters: create is the outcome of
client.responses.create at line 137 (Except.ok gives response.output_text,
Except.error the raised exception message), and loads is json.loads at
line 144 (Except.error a raised exception message).  The try block chains
them; the except block at 146-152 builds the fallback dict. -/
def llm_agent (create : Except String String)
    (loads : String → Except String PyVal) (user : FitnessUser) : PyVal :=
  match (do
    let result_text ← create
    loads result_text : Except String PyVal) with
  | Except.ok v => v
  | Except.error e =>
    let fallback := deterministic_agent user
    PyVal.dict [("reasoning", PyVal.str ("LLM planning failed: " ++ e)),
      ("weekly_schedule", scheduleToPy fallback.weekly_schedule),
      ("considerations", PyVal.str "Fallback to rule-based plan.")]

/-- Reading user.fitness_level: returns the value and the user object as the
Python attribute access leaves it. -/
def readFitnessLevel (u : FitnessUser) : Int × FitnessUser := (u.fitness_level, u)

/-- The Python membership test tag in user.goals: returns the boolean and the
user object as the test leaves it. -/
def readGoalsMember (tag : String) (u : FitnessUser) : Bool × FitnessUser :=
  (u.goals.contains tag, u)

/-- State-passing rendering of deterministic_agent: every operation the source
applies to the user object (the attribute reads at lines 35-45 and the
membership tests at lines 48-54) is threaded explicitly, so the user object
returned alongside the plan is the input as the call leaves it. -/
def deterministic_agentSt (u0 : FitnessUser) : WeeklyPlan × FitnessUser :=
  let r1 := readFitnessLevel u0
  let wd : Nat × FitnessUser :=
    if r1.1 ≥ 4 then (5, r1.2)
    else
      let r2 := readFitnessLevel r1.2
      if r2.1 ≥ 2 then (4, r2.2) else (3, r2.2)
  let r3 := readFitnessLevel wd.2
  let sd : Nat × FitnessUser := if r3.1 ≥ 3 then (45, r3.2) else (30, r3.2)
  let r4 := readFitnessLevel sd.2
  let inten : String × FitnessUser :=
    if r4.1 ≤ 2 then ("low", r4.2)
    else
      let r5 := readFitnessLevel r4.2
      if r5.1 ≥ 4 then ("high", r5.2) else ("moderate", r5.2)
  let m1 := readGoalsMember "weight management" inten.2
  let wt1 : List String := if m1.1 then ["cardio"] else []
  let m2 := readGoalsMember "strength building" m1.2
  let wt2 : List String := if m2.1 then wt1 ++ ["strength training"] else wt1
  let m3 := readGoalsMember "flexibility" m2.2
  let wt3 : List String := if m3.1 then wt2 ++ ["stretching"] else wt2
  let m4 := readGoalsMember "endurance" m3.2
  let wt4 : List String := if m4.1 then wt3 ++ ["interval training"] else wt3
  let workout_types : List String :=
    if wt4.isEmpty then ["general fitness", "light cardio"] else wt4
  let weekly_schedule : List (String × DaySession) :=
    (List.range wd.1).map fun i =>
      let workout_type := workout_types.getD (i % workout_types.length) ""
      (days.getD i "",
        { type := workout_type
          duration := sd.1
          intensity := inten.1
          description := pycapitalize inten.1 ++ " " ++ workout_type ++ " session" })
  ({ workout_days := wd.1
     session_duration := sd.1
     workout_types := workout_types
     intensity := inten.1
     weekly_schedule := weekly_schedule }, m4.2)

/-- The spec description of step 4: the categories of the fixed table
restricted to the goal tags present, in table order, with the fixed fallback
pair when nothing matches. -/
def goalTable : List (String × String) :=
  [("weight management", "cardio"), ("strength building", "strength training"),
   ("flexibility", "stretching"), ("endurance", "interval training")]

/-- Modelled from the words of the spec (section 4.1 step 4), for comparison
with the source translation deterministic_agent. -/
def workoutTypesSpec (goals : List String) : List String :=
  let matched := (goalTable.filter fun entry => goals.contains entry.1).map Prod.snd
  if matched.isEmpty then ["general fitness", "light cardio"] else matched

/-- Sample user U001 of starter.py 188-195. -/
def sampleUser2 : FitnessUser :=
  { id := "U001", age := 35, fitness_level := 2,
    goals := ["weight management", "stress reduction"],
    preferences := ["home workouts", "morning routines"],
    limitations := ["limited equipment", "time constraints (max 30 min/day)"] }

/-- A user at fitness level 0, below the documented range. -/
def sampleUser0 : FitnessUser :=
  { id := "U000", age := 30, fitness_level := 0, goals := [],
    preferences := [], limitations := [] }

/-- Sample user U002 of starter.py 196-203. -/
def sampleUser3 : FitnessUser :=
  { id := "U002", age := 55, fitness_level := 3,
    goals := ["joint mobility", "strength building"],
    preferences := ["outdoor activities", "swimming"],
    limitations := ["mild joint stiffness"] }

/-- A second construction of the same profile values as sampleUser3. -/
def sampleUser3Copy : FitnessUser :=
  { id := "U002", age := 55, fitness_level := 3,
    goals := ["joint mobility", "strength building"],
    preferences := ["outdoor activities", "swimming"],
    limitations := ["mild joint stiffness"] }

/-- C1: for fitnessLevel in [1,5] the plan meets the threshold table: levels 1
and 2 give intensity low and duration 30, with 3 workout days at level 1 and 4
at level 2; level 3 gives moderate, 45, 4 days; levels 4 and 5 give high, 45,
5 days. -/
theorem fitness_thresholds (u : FitnessUser)
    (h1 : 1 ≤ u.fitness_level) (h5 : u.fitness_level ≤ 5) :
    ((u.fitness_level = 1 ∨ u.fitness_level = 2) →
       (deterministic_agent u).intensity = "low" ∧
       (deterministic_agent u).session_duration = 30 ∧
       (deterministic_agent u).workout_days = (if u.fitness_level = 1 then 3 else 4)) ∧
    (u.fitness_level = 3 →
       (deterministic_agent u).intensity = "moderate" ∧
       (deterministic_agent u).session_duration = 45 ∧
       (deterministic_agent u).workout_days = 4) ∧
    ((u.fitness_level = 4 ∨ u.fitness_level = 5) →
       (deterministic_agent u).intensity = "high" ∧
       (deterministic_agent u).session_duration = 45 ∧
       (deterministic_agent u).workout_days = 5) := by
  refine ⟨fun h => ?_, fun h => ?_, fun h => ?_⟩ <;>
    [rcases h with h | h; skip; rcases h with h | h] <;>
    simp [deterministic_agent, h]

/-- Witness for fitness_thresholds at the level-2 sample user. -/
theorem fitness_thresholds_witness :
    (deterministic_agent sampleUser2).intensity = "low" ∧
    (deterministic_agent sampleUser2).session_duration = 30 ∧
    (deterministic_agent sampleUser2).workout_days =
      (if sampleUser2.fitness_level = 1 then 3 else 4) :=
  (fitness_thresholds sampleUser2 (by decide) (by decide)).1 (Or.inr (by decide))

/-- C7: any fitness_level at most 1, zero and negatives included, lands in
the low buckets: 3 workout days, duration 30, intensity low. -/
theorem low_bucket (u : FitnessUser) (h : u.fitness_level ≤ 1) :
    (deterministic_agent u).workout_days = 3 ∧
    (deterministic_agent u).session_duration = 30 ∧
    (deterministic_agent u).intensity = "low" := by
  unfold deterministic_agent
  refine ⟨?_, ?_, ?_⟩ <;> simp only [] <;> split_ifs <;>
    first | rfl | (exfalso; omega)

/-- Witness for low_bucket at fitness level 0. -/
theorem low_bucket_witness :
    (deterministic_agent sampleUser0).workout_days = 3 ∧
    (deterministic_agent sampleUser0).session_duration = 30 ∧
    (deterministic_agent sampleUser0).intensity = "low" :=
  low_bucket sampleUser0 (by decide)

/-- C4: deterministic_agent is deterministic: equal field values give
identical plans; the embedding is a pure function, with no input and output
effects and no randomness. -/
theorem deterministic_agent_deterministic (u v : FitnessUser)
    (hid : u.id = v.id) (hage : u.age = v.age)
    (hfl : u.fitness_level = v.fitness_level) (hg : u.goals = v.goals)
    (hp : u.preferences = v.preferences) (hl : u.limitations = v.limitations) :
    deterministic_agent u = deterministic_agent v := by
  have huv : u = v := by cases u; cases v; simp_all
  rw [huv]

/-- Witness for deterministic_agent_deterministic at two equal constructions
of the U002 profile. -/
theorem deterministic_agent_deterministic_witness :
    deterministic_agent sampleUser3 = deterministic_agent sampleUser3Copy :=
  deterministic_agent_deterministic sampleUser3 sampleUser3Copy
    rfl rfl rfl rfl rfl rfl

/-- C2: the workout_types list equals the table categories restricted to the
goal tags present, in table order whatever the order of goals, with the fixed
fallback pair when nothing matches. -/
theorem workout_types_spec (u : FitnessUser) :
    (deterministic_agent u).workout_types = workoutTypesSpec u.goals := by
  unfold deterministic_agent workoutTypesSpec goalTable
  by_cases hg1 : "weight management" ∈ u.goals <;>
  by_cases hg2 : "strength building" ∈ u.goals <;>
  by_cases hg3 : "flexibility" ∈ u.goals <;>
  by_cases hg4 : "endurance" ∈ u.goals <;>
  simp [hg1, hg2, hg3, hg4, List.filter]

/-- C9: workout_types never has duplicates and its length is between 1 and 4:
each category is appended at most once because each rule is a membership
test. -/
theorem workout_types_nodup (u : FitnessUser) :
    (deterministic_agent u).workout_types.Nodup ∧
    1 ≤ (deterministic_agent u).workout_types.length ∧
    (deterministic_agent u).workout_types.length ≤ 4 := by
  unfold deterministic_agent
  by_cases hg1 : "weight management" ∈ u.goals <;>
  by_cases hg2 : "strength building" ∈ u.goals <;>
  by_cases hg3 : "flexibility" ∈ u.goals <;>
  by_cases hg4 : "endurance" ∈ u.goals <;>
  simp [hg1, hg2, hg3, hg4]

/-- C8: the state-passing rendering, in which every operation the source
applies to the user object is threaded, returns the input user unchanged next
to the same plan: deterministic_agent reads its input and never mutates it. -/
theorem no_mutation (u : FitnessUser) :
    deterministic_agentSt u = (deterministic_agent u, u) := by
  simp only [deterministic_agentSt, deterministic_agent, readFitnessLevel,
    readGoalsMember, apply_ite Prod.fst, apply_ite Prod.snd, ite_self]

/-- The weekly_schedule is the map over the first workout_days indices, each
index paired with its day and its session record. -/
theorem weekly_schedule_eq (u : FitnessUser) :
    (deterministic_agent u).weekly_schedule =
      (List.range (deterministic_agent u).workout_days).map fun i =>
        (days.getD i "",
          { type := (deterministic_agent u).workout_types.getD
              (i % (deterministic_agent u).workout_types.length) ""
            duration := (deterministic_agent u).session_duration
            intensity := (deterministic_agent u).intensity
            description := pycapitalize (deterministic_agent u).intensity ++ " " ++
              (deterministic_agent u).workout_types.getD
                (i % (deterministic_agent u).workout_types.length) "" ++
              " session" }) := rfl

/-- workout_days never exceeds 5. -/
theorem workout_days_le (u : FitnessUser) :
    (deterministic_agent u).workout_days ≤ 5 := by
  unfold deterministic_agent
  dsimp only
  split_ifs <;> decide

/-- The first n entries of the day sequence, read off positionally, form the
prefix of length n, for n up to 6. -/
theorem range_map_getD_days (n : Nat) (h : n ≤ 6) :
    (List.range n).map (fun i => days.getD i "") = days.take n := by
  interval_cases n <;> rfl

/-- C3: the weekly schedule has exactly workout_days entries, its keys are
the prefix of that length of the fixed day sequence, and the i-th entry
carries the round-robin workout type, the session duration, the plan
intensity and the capitalised description. -/
theorem weekly_schedule_spec (u : FitnessUser) (i : Nat)
    (hi : i < (deterministic_agent u).workout_days) :
    (deterministic_agent u).weekly_schedule.length = (deterministic_agent u).workout_days ∧
    (deterministic_agent u).weekly_schedule.map Prod.fst =
      days.take (deterministic_agent u).workout_days ∧
    (deterministic_agent u).weekly_schedule.getD i ("", default) =
      (days.getD i "",
        { type := (deterministic_agent u).workout_types.getD
            (i % (deterministic_agent u).workout_types.length) ""
          duration := (deterministic_agent u).session_duration
          intensity := (deterministic_agent u).intensity
          description := pycapitalize (deterministic_agent u).intensity ++ " " ++
            (deterministic_agent u).workout_types.getD
              (i % (deterministic_agent u).workout_types.length) "" ++
            " session" }) := by
  refine ⟨?_, ?_, ?_⟩
  · rw [weekly_schedule_eq]
    simp
  · rw [weekly_schedule_eq, List.map_map]
    exact range_map_getD_days _ (le_trans (workout_days_le u) (by decide))
  · rw [weekly_schedule_eq, List.getD_eq_getElem?_getD, List.getElem?_map,
      List.getElem?_range hi]
    rfl

/-- Witness for weekly_schedule_spec at the U002 sample user and index 0. -/
theorem weekly_schedule_spec_witness :
    (deterministic_agent sampleUser3).weekly_schedule.length =
      (deterministic_agent sampleUser3).workout_days ∧
    (deterministic_agent sampleUser3).weekly_schedule.map Prod.fst =
      days.take (deterministic_agent sampleUser3).workout_days ∧
    (deterministic_agent sampleUser3).weekly_schedule.getD 0 ("", default) =
      (days.getD 0 "",
        { type := (deterministic_agent sampleUser3).workout_types.getD
            (0 % (deterministic_agent sampleUser3).workout_types.length) ""
          duration := (deterministic_agent sampleUser3).session_duration
          intensity := (deterministic_agent sampleUser3).intensity
          description := pycapitalize (deterministic_agent sampleUser3).intensity ++ " " ++
            (deterministic_agent sampleUser3).workout_types.getD
              (0 % (deterministic_agent sampleUser3).workout_types.length) "" ++
            " session" }) :=
  weekly_schedule_spec sampleUser3 0 (by decide)

/-- The workout_types list is never empty, the fallback pair covering the
no-match case. -/
theorem workout_types_ne_nil (u : FitnessUser) :
    (deterministic_agent u).workout_types ≠ [] := by
  unfold deterministic_agent
  by_cases hg1 : "weight management" ∈ u.goals <;>
  by_cases hg2 : "strength building" ∈ u.goals <;>
  by_cases hg3 : "flexibility" ∈ u.goals <;>
  by_cases hg4 : "endurance" ∈ u.goals <;>
  simp [hg1, hg2, hg3, hg4]

/-- A mapM over Option whose steps all succeed returns the list of their
results. -/
theorem mapM_loop_eq {α β : Type} (f : α → Option β) (g : α → β) :
    ∀ (l : List α) (acc : List β), (∀ x ∈ l, f x = some (g x)) →
      List.mapM.loop f l acc = some (acc.reverse ++ l.map g)
  | [], acc, _ => by simp [List.mapM.loop]
  | a :: t, acc, h => by
    have ha : f a = some (g a) := h a (by simp)
    have ih := mapM_loop_eq f g t (g a :: acc)
      fun x hx => h x (List.mem_cons_of_mem _ hx)
    simp [List.mapM.loop, ha, ih]

/-- mapM over Option with everywhere-successful steps is map. -/
theorem mapM_eq_map_of_forall {α β : Type} (f : α → Option β) (g : α → β)
    (l : List α) (h : ∀ x ∈ l, f x = some (g x)) : l.mapM f = some (l.map g) := by
  have hloop := mapM_loop_eq f g l [] h
  simpa [List.mapM] using hloop

/-- One checked schedule entry succeeds whenever the type list is non-empty
and the index is within the six-day sequence. -/
theorem checked_session_ok (wt : List String) (dur : Nat) (inten : String)
    (i : Nat) (hwt : wt ≠ []) (hi : i < 6) :
    (do
      let j ← pyMod i wt.length
      let workout_type ← pyIndex wt j
      let day ← pyIndex days i
      pure ((day,
        { type := workout_type
          duration := dur
          intensity := inten
          description := pycapitalize inten ++ " " ++ workout_type ++ " session" }) :
        String × DaySession)) =
      some (days.getD i "",
        { type := wt.getD (i % wt.length) ""
          duration := dur
          intensity := inten
          description := pycapitalize inten ++ " " ++ wt.getD (i % wt.length) "" ++
            " session" }) := by
  have hlen : wt.length ≠ 0 := fun hh => hwt (List.length_eq_zero.mp hh)
  have hmod : i % wt.length < wt.length := Nat.mod_lt _ (Nat.pos_of_ne_zero hlen)
  have hdays : i < days.length := by simpa [days] using hi
  simp [pyMod, pyIndex, hlen, List.getElem?_eq_getElem hmod,
    List.getElem?_eq_getElem hdays, List.getD_eq_getElem?_getD]

/-- deterministic_agentChecked, rewritten so that the shared prefix appears
through the fields of the plan it computes. -/
theorem checked_eq (u : FitnessUser) :
    deterministic_agentChecked u =
      (do
        let ws ← (List.range (deterministic_agent u).workout_days).mapM fun i => do
          let j ← pyMod i (deterministic_agent u).workout_types.length
          let workout_type ← pyIndex (deterministic_agent u).workout_types j
          let day ← pyIndex days i
          pure ((day,
            { type := workout_type
              duration := (deterministic_agent u).session_duration
              intensity := (deterministic_agent u).intensity
              description := pycapitalize (deterministic_agent u).intensity ++ " " ++
                workout_type ++ " session" }) : String × DaySession)
        pure { workout_days := (deterministic_agent u).workout_days
               session_duration := (deterministic_agent u).session_duration
               workout_types := (deterministic_agent u).workout_types
               intensity := (deterministic_agent u).intensity
               weekly_schedule := ws }) := rfl

/-- C5: the planner is total: the version that models the fallible Python
operations (modulo by a possibly-zero length, indexing into workout_types and
into the six-day list) always succeeds and returns the same plan, for every
fitness_level integer and every goals list; moreover workout_types is never
empty and workout_days never exceeds 5. -/
theorem deterministic_agent_total (u : FitnessUser) :
    deterministic_agentChecked u = some (deterministic_agent u) ∧
    (deterministic_agent u).workout_types ≠ [] ∧
    (deterministic_agent u).workout_days ≤ 5 := by
  refine ⟨?_, workout_types_ne_nil u, workout_days_le u⟩
  rw [checked_eq]
  rw [mapM_eq_map_of_forall _
      (fun i => (days.getD i "",
        { type := (deterministic_agent u).workout_types.getD
            (i % (deterministic_agent u).workout_types.length) ""
          duration := (deterministic_agent u).session_duration
          intensity := (deterministic_agent u).intensity
          description := pycapitalize (deterministic_agent u).intensity ++ " " ++
            (deterministic_agent u).workout_types.getD
              (i % (deterministic_agent u).workout_types.length) "" ++
            " session" }))
      _
      (fun i hi =>
        checked_session_ok (deterministic_agent u).workout_types
          (deterministic_agent u).session_duration (deterministic_agent u).intensity i
          (workout_types_ne_nil u)
          (by
            have hin := List.mem_range.mp hi
            have hle := workout_days_le u
            omega))]
  rw [← weekly_schedule_eq u]
  rfl

/-- C6 counterexample: when the external call succeeds and json.loads parses
the response text "42" to the number 42, llm_agent returns that value as-is,
which is not WeeklyPlan-shaped: the shape guarantee does not hold on every
success. -/
theorem llm_agent_shape_cex :
    isWeeklyPlanShaped
      (llm_agent (Except.ok "42") (fun _ => Except.ok (PyVal.int 42)) sampleUser2) =
      false := rfl

/-- C6 amended: whenever the external call or the parse fails, llm_agent
returns, without raising, the dict whose weekly_schedule is exactly the
rule-based schedule of deterministic_agent, whose reasoning reports the
failure message, and whose considerations notes the fallback. -/
theorem llm_agent_fallback (create : Except String String)
    (loads : String → Except String PyVal) (u : FitnessUser) (e : String)
    (h : (do
      let result_text ← create
      loads result_text : Except String PyVal) = Except.error e) :
    llm_agent create loads u =
      PyVal.dict [("reasoning", PyVal.str ("LLM planning failed: " ++ e)),
        ("weekly_schedule", scheduleToPy (deterministic_agent u).weekly_schedule),
        ("considerations", PyVal.str "Fallback to rule-based plan.")] := by
  unfold llm_agent
  rw [h]

/-- Witness for llm_agent_fallback at a failing external call. -/
theorem llm_agent_fallback_witness :
    llm_agent (Except.error "boom") (fun _ => Except.error "bad json") sampleUser2 =
      PyVal.dict [("reasoning", PyVal.str ("LLM planning failed: " ++ "boom")),
        ("weekly_schedule", scheduleToPy (deterministic_agent sampleUser2).weekly_schedule),
        ("considerations", PyVal.str "Fallback to rule-based plan.")] :=
  llm_agent_fallback (Except.error "boom") (fun _ => Except.error "bad json")
    sampleUser2 "boom" rfl

/-- C10: the fallback dict has exactly the keys reasoning, weekly_schedule and
considerations, in that order; the top-level keys of the rule-based plan dict
(workout_days, session_duration, workout_types, intensity) are all absent, so
the fallback is not the full rule-based plan shape. -/
theorem llm_agent_fallback_keys (create : Except String String)
    (loads : String → Except String PyVal) (u : FitnessUser) (e : String)
    (h : (do
      let result_text ← create
      loads result_text : Except String PyVal) = Except.error e) :
    pyKeys (llm_agent create loads u) =
      ["reasoning", "weekly_schedule", "considerations"] ∧
    pyKeys (planToPy (deterministic_agent u)) =
      ["workout_days", "session_duration", "workout_types", "intensity",
        "weekly_schedule"] ∧
    (pyKeys (llm_agent create loads u)).contains "workout_days" = false ∧
    (pyKeys (llm_agent create loads u)).contains "session_duration" = false ∧
    (pyKeys (llm_agent create loads u)).contains "intensity" = false ∧
    (pyKeys (llm_agent create loads u)).contains "workout_types" = false := by
  unfold llm_agent
  rw [h]
  dsimp only [pyKeys, List.map]
  exact ⟨rfl, rfl, by decide, by decide, by decide, by decide⟩

/-- Witness for llm_agent_fallback_keys at a failing parse. -/
theorem llm_agent_fallback_keys_witness :
    pyKeys (llm_agent (Except.ok "not json") (fun _ => Except.error "invalid")
        sampleUser3) =
      ["reasoning", "weekly_schedule", "considerations"] ∧
    pyKeys (planToPy (deterministic_agent sampleUser3)) =
      ["workout_days", "session_duration", "workout_types", "intensity",
        "weekly_schedule"] ∧
    (pyKeys (llm_agent (Except.ok "not json") (fun _ => Except.error "invalid")
        sampleUser3)).contains "workout_days" = false ∧
    (pyKeys (llm_agent (Except.ok "not json") (fun _ => Except.error "invalid")
        sampleUser3)).contains "session_duration" = false ∧
    (pyKeys (llm_agent (Except.ok "not json") (fun _ => Except.error "invalid")
        sampleUser3)).contains "intensity" = false ∧
    (pyKeys (llm_agent (Except.ok "not json") (fun _ => Except.error "invalid")
        sampleUser3)).contains "workout_types" = false :=
  llm_agent_fallback_keys (Except.ok "not json") (fun _ => Except.error "invalid")
    sampleUser3 "invalid" rfl

end FitnessPlanner
